import Mathlib

/-!
Verification development for the ebook storefront client.

The definitions below are shallow embeddings of the client's
data-synchronization and realtime layer: the cart synchronizer
(src/contexts/CartContext.tsx), the cart refresh normalization, the
chat widget's message handling (ChatWidget), the two WebSocket
channels (ChatWidget and the App notification channel), the catalog
filter state (src/components/BookCatalog.tsx with App's
handleFilterChange and buildQueryString), the HTTP gateway error path
(src/services/api.ts) and the auth restore effect
(src/contexts/AuthContext.tsx).  Stateful React code is embedded as
explicit state-passing functions; remote calls are recorded in an
explicit trace; fallible code returns Except or pairs a state with an
optionally thrown error.
-/

namespace EbookClient

namespace Cart

/-- A cart line as held in CartContext state (the CartItem interface of
src/contexts/CartContext.tsx).  The nested book payload of the
TypeScript interface is elided: the cart logic reads only id, book_id
and quantity. -/
structure CartItem where
  id : Nat
  book_id : Nat
  quantity : Int
  deriving DecidableEq, Repr

/-- One remote cart call issued through cartApi (src/services/api.ts):
GET /cart, POST /cart/add, PUT /cart/(itemId), DELETE /cart/(itemId). -/
inductive CartCall where
  | get : CartCall
  | add (bookId : Nat) (quantity : Int) : CartCall
  | update (itemId : Nat) (quantity : Int) : CartCall
  | remove (itemId : Nat) : CartCall
  deriving DecidableEq, Repr

/-- Modelled from the spec: the remote cart mirrored by the client.
The backend is not part of this repository (spec section 1 treats it as
an external collaborator); spec section 6 and the repository's backend
documentation give its cart endpoints: POST /cart/add appends a line
and assigns the server line id, PUT /cart/(itemId) sets a line's
quantity, DELETE /cart/(itemId) removes a line, GET /cart answers with
the full line list. -/
structure ServerCart where
  items : List CartItem
  nextId : Nat
  deriving DecidableEq, Repr

/-- Modelled from the spec: POST /cart/add appends a fresh line. -/
def serverAdd (s : ServerCart) (bookId : Nat) (quantity : Int) : ServerCart :=
  { items := s.items ++ [{ id := s.nextId, book_id := bookId, quantity := quantity }],
    nextId := s.nextId + 1 }

/-- Modelled from the spec: PUT /cart/(itemId) sets that line's quantity. -/
def serverUpdate (s : ServerCart) (itemId : Nat) (quantity : Int) : ServerCart :=
  { s with
    items := s.items.map fun it =>
      if it.id = itemId then { it with quantity := quantity } else it }

/-- Modelled from the spec: DELETE /cart/(itemId) removes that line. -/
def serverRemove (s : ServerCart) (itemId : Nat) : ServerCart :=
  { s with items := s.items.filter fun it => it.id != itemId }

/-- A run of CartProvider (src/contexts/CartContext.tsx): whether user
and token from useAuth() are present, the cartItems React state, the
remote cart acted on by the cartApi calls, and the trace of the remote
calls issued so far. -/
structure World where
  user : Bool
  token : Bool
  cartItems : List CartItem
  server : ServerCart
  calls : List CartCall
  deriving DecidableEq, Repr

/-- refreshCart (CartContext.tsx lines 38-53): with no user or token it
clears local state and issues no remote call; otherwise it issues GET
/cart and replaces cartItems wholesale with the response's lines
(success path; the envelope normalization of line 47 is embedded
separately as CartSync.normalizeCartResponse, both envelope shapes
yielding the server's line list). -/
def refreshCart (w : World) : World :=
  if w.user && w.token then
    { w with calls := w.calls ++ [CartCall.get], cartItems := w.server.items }
  else
    { w with cartItems := [] }

/-- removeFromCart (CartContext.tsx lines 98-108): requires a token,
issues DELETE /cart/(itemId), then refreshes. -/
def removeFromCart (w : World) (itemId : Nat) : Except String World :=
  if !w.token then Except.error "Must be logged in"
  else
    let w1 := { w with server := serverRemove w.server itemId,
                       calls := w.calls ++ [CartCall.remove itemId] }
    Except.ok (refreshCart w1)

/-- updateQuantity (CartContext.tsx lines 81-96): requires a token; a
quantity of at most zero delegates to removeFromCart; otherwise issues
PUT /cart/(itemId) with the quantity, then refreshes. -/
def updateQuantity (w : World) (itemId : Nat) (quantity : Int) : Except String World :=
  if !w.token then Except.error "Must be logged in"
  else if quantity ≤ 0 then removeFromCart w itemId
  else
    let w1 := { w with server := serverUpdate w.server itemId quantity,
                       calls := w.calls ++ [CartCall.update itemId quantity] }
    Except.ok (refreshCart w1)

/-- addToCart (CartContext.tsx lines 63-79): requires user and token;
when a local line for the book exists it delegates to updateQuantity
with that line's quantity plus one; otherwise it issues POST /cart/add
with quantity one, then refreshes. -/
def addToCart (w : World) (bookId : Nat) : Except String World :=
  if !w.user || !w.token then Except.error "Must be logged in"
  else
    match w.cartItems.find? (fun it => it.book_id == bookId) with
    | some existingItem => updateQuantity w existingItem.id (existingItem.quantity + 1)
    | none =>
      let w1 := { w with server := serverAdd w.server bookId 1,
                         calls := w.calls ++ [CartCall.add bookId 1] }
      Except.ok (refreshCart w1)

end Cart

/-- C1: when a local line for the book already exists, addToCart
delegates to updateQuantity with that line's quantity plus one, so no
second remote add is issued; and starting from an empty synced cart,
two sequential addToCart calls for the same book end with exactly one
line of quantity 2 — never two lines — and exactly one remote add in
the call trace. -/
theorem addToCart_dedup (w : Cart.World) (bookId : Nat)
    (it : Cart.CartItem) (hu : w.user = true)
    (hfind : w.cartItems.find? (fun i => i.book_id == bookId) = some it) :
    Cart.addToCart w bookId = Cart.updateQuantity w it.id (it.quantity + 1) ∧
    ∀ b : Nat,
      (Cart.addToCart
          { user := true, token := true, cartItems := [],
            server := { items := [], nextId := 0 }, calls := [] } b).bind
          (fun w1 => Cart.addToCart w1 b) =
        Except.ok
          { user := true, token := true,
            cartItems := [{ id := 0, book_id := b, quantity := 2 }],
            server := { items := [{ id := 0, book_id := b, quantity := 2 }],
                        nextId := 1 },
            calls := [Cart.CartCall.add b 1, Cart.CartCall.get,
                      Cart.CartCall.update 0 2, Cart.CartCall.get] } := by
  constructor
  · cases htok : w.token
    · simp [Cart.addToCart, Cart.updateQuantity, hu, htok]
    · simp [Cart.addToCart, hu, htok, hfind]
  · intro b
    simp [Cart.addToCart, Cart.refreshCart, Cart.updateQuantity,
      Cart.removeFromCart, Cart.serverAdd, Cart.serverUpdate,
      Cart.serverRemove, List.find?, Except.bind]

/-- Closed instance of addToCart_dedup: in a synced cart already
holding line 5 for book 9 at quantity 3, addToCart 9 is exactly
updateQuantity of line 5 to quantity 4. -/
theorem addToCart_dedup_witness :
    Cart.addToCart
        { user := true, token := true,
          cartItems := [{ id := 5, book_id := 9, quantity := 3 }],
          server := { items := [{ id := 5, book_id := 9, quantity := 3 }],
                      nextId := 6 },
          calls := [] } 9 =
      Cart.updateQuantity
        { user := true, token := true,
          cartItems := [{ id := 5, book_id := 9, quantity := 3 }],
          server := { items := [{ id := 5, book_id := 9, quantity := 3 }],
                      nextId := 6 },
          calls := [] } 5 4 := by
  have h := addToCart_dedup
    { user := true, token := true,
      cartItems := [{ id := 5, book_id := 9, quantity := 3 }],
      server := { items := [{ id := 5, book_id := 9, quantity := 3 }],
                  nextId := 6 },
      calls := [] } 9 { id := 5, book_id := 9, quantity := 3 } rfl (by decide)
  simpa using h.1

/-- C2: a quantity of at most zero makes updateQuantity delegate to
removeFromCart (so no update call — in particular no zero or negative
quantity — reaches the server on that path), the targeted line is
absent from the resulting local cart, and with every server line
positive no updateQuantity call of any quantity leaves a non-positive
quantity on a surviving line. -/
theorem updateQuantity_floor (w : Cart.World) (itemId : Nat) (q : Int)
    (hq : q ≤ 0) (hpos : ∀ it ∈ w.server.items, 0 < it.quantity) :
    Cart.updateQuantity w itemId q = Cart.removeFromCart w itemId ∧
    (∀ r, Cart.updateQuantity w itemId q = Except.ok r →
      ∀ it ∈ r.cartItems, it.id ≠ itemId) ∧
    (∀ q2 r, Cart.updateQuantity w itemId q2 = Except.ok r →
      ∀ it ∈ r.cartItems, 0 < it.quantity) := by
  refine ⟨?_, ?_, ?_⟩
  · cases htok : w.token
    · simp [Cart.updateQuantity, Cart.removeFromCart, htok]
    · simp [Cart.updateQuantity, htok, hq]
  · intro r hr it hit
    cases htok : w.token
    · simp [Cart.updateQuantity, htok] at hr
    · simp [Cart.updateQuantity, Cart.removeFromCart, htok, hq,
        Cart.refreshCart, Cart.serverRemove] at hr
      by_cases huser : w.user
      · simp [huser] at hr
        subst hr
        simp only [List.mem_filter] at hit
        simpa using hit.2
      · simp [huser] at hr
        subst hr
        simp at hit
  · intro q2 r hr it hit
    cases htok : w.token
    · simp [Cart.updateQuantity, htok] at hr
    · by_cases hq2 : q2 ≤ 0
      · simp [Cart.updateQuantity, Cart.removeFromCart, htok, hq2,
          Cart.refreshCart, Cart.serverRemove] at hr
        by_cases huser : w.user
        · simp [huser] at hr
          subst hr
          simp only [List.mem_filter] at hit
          exact hpos it hit.1
        · simp [huser] at hr
          subst hr
          simp at hit
      · simp [Cart.updateQuantity, htok, hq2, Cart.refreshCart,
          Cart.serverUpdate] at hr
        by_cases huser : w.user
        · simp [huser] at hr
          subst hr
          simp only [List.mem_map] at hit
          obtain ⟨src, hsrc, heq⟩ := hit
          by_cases hid : src.id = itemId
          · subst heq
            simp [hid]
            omega
          · subst heq
            simp [hid]
            exact hpos src hsrc
        · simp [huser] at hr
          subst hr
          simp at hit

/-- Closed instance of updateQuantity_floor: updating line 5 to
quantity 0 in a one-line cart is exactly removeFromCart of line 5. -/
theorem updateQuantity_floor_witness :
    Cart.updateQuantity
        { user := true, token := true,
          cartItems := [{ id := 5, book_id := 9, quantity := 3 }],
          server := { items := [{ id := 5, book_id := 9, quantity := 3 }],
                      nextId := 6 },
          calls := [] } 5 0 =
      Cart.removeFromCart
        { user := true, token := true,
          cartItems := [{ id := 5, book_id := 9, quantity := 3 }],
          server := { items := [{ id := 5, book_id := 9, quantity := 3 }],
                      nextId := 6 },
          calls := [] } 5 :=
  (updateQuantity_floor
    { user := true, token := true,
      cartItems := [{ id := 5, book_id := 9, quantity := 3 }],
      server := { items := [{ id := 5, book_id := 9, quantity := 3 }],
                  nextId := 6 },
      calls := [] } 5 0 (by decide) (by decide)).1

namespace CartSync

/-- The nested half of the CartAPIResponse union (CartContext.tsx line
36): a cart object carrying the item list. -/
structure CartEnvelope where
  items : List Cart.CartItem
  deriving DecidableEq, Repr

/-- The CartAPIResponse union of CartContext.tsx line 36: either a
nested envelope holding cart.items or a flat envelope holding items
(each side optional, mirroring the optional fields of the union). -/
structure CartAPIResponse where
  cart : Option CartEnvelope
  items : Option (List Cart.CartItem)
  deriving DecidableEq, Repr

/-- CartContext.tsx line 47: response.cart?.items, or else
response.items, or else the empty list.  A JavaScript array is always
truthy, so a present cart envelope wins even when its item list is
empty, and a present flat items field wins over the final default. -/
def normalizeCartResponse (r : CartAPIResponse) : List Cart.CartItem :=
  match r.cart with
  | some envelope => envelope.items
  | none => r.items.getD []

/-- The setCartItems commit of refreshCart's success path
(CartContext.tsx lines 46-47): a resolved GET /cart response replaces
the cartItems state wholesale; no request sequence number or other
staleness check gates the commit. -/
def commitRefresh (_cartItems : List Cart.CartItem) (r : CartAPIResponse) :
    List Cart.CartItem :=
  normalizeCartResponse r

end CartSync

/-- C3 counterexample: mutation A's refresh (carrying the one-line cart
at quantity 1) resolves after mutation B's refresh (carrying quantity
2); the committed state is A's normalized response, not B's — the
older response overwrites the newer state, there is no sequence-number
gate. -/
theorem refresh_stale_overwrites_cex :
    CartSync.commitRefresh
        (CartSync.commitRefresh []
          { cart := some { items := [{ id := 1, book_id := 1, quantity := 2 }] },
            items := none })
        { cart := some { items := [{ id := 1, book_id := 1, quantity := 1 }] },
          items := none } =
      CartSync.normalizeCartResponse
        { cart := some { items := [{ id := 1, book_id := 1, quantity := 1 }] },
          items := none } ∧
    CartSync.normalizeCartResponse
        { cart := some { items := [{ id := 1, book_id := 1, quantity := 1 }] },
          items := none } ≠
      CartSync.normalizeCartResponse
        { cart := some { items := [{ id := 1, book_id := 1, quantity := 2 }] },
          items := none } := by
  exact ⟨rfl, by decide⟩

/-- C3 amended: cart refresh results are applied in resolution order
with no staleness check — after any sequence of refresh commits, the
local cart equals the normalization of whichever response resolved
last, regardless of the order the requests were issued in. -/
theorem refresh_last_resolved_wins (prior : List Cart.CartItem)
    (rs : List CartSync.CartAPIResponse) (r : CartSync.CartAPIResponse) :
    (rs ++ [r]).foldl CartSync.commitRefresh prior =
      CartSync.normalizeCartResponse r := by
  induction rs generalizing prior with
  | nil => rfl
  | cons head tail ih => simpa using ih (CartSync.commitRefresh prior head)

/-- C4: the nested envelope with cart.items and the flat envelope with
items, carrying the same line data, normalize to the identical internal
line list. -/
theorem normalize_envelope_tolerance (l : List Cart.CartItem) :
    CartSync.normalizeCartResponse { cart := some { items := l }, items := none } = l ∧
    CartSync.normalizeCartResponse { cart := none, items := some l } = l :=
  ⟨rfl, rfl⟩

namespace Chat

/-- A chat message (the Message interface of ChatWidget). -/
structure Message where
  id : Nat
  content : String
  sender_id : Nat
  created_at : Nat
  is_admin : Bool
  deriving DecidableEq, Repr

/-- An inbound WebSocket frame after JSON.parse: either the parse threw
(malformed, caught and dropped at ChatWidget lines 59-61) or an
envelope with a type discriminator and a payload. -/
inductive WsFrame where
  | malformed : WsFrame
  | envelope (type : String) (payload : Message) : WsFrame
  deriving DecidableEq, Repr

/-- An event touching the ChatWidget messages state: an inbound socket
frame (ws.onmessage, ChatWidget lines 52-62) or the resolution of the
history fetch (fetchHistory, lines 76-90; carries some list when
Array.isArray(data) held, none otherwise). -/
inductive ChatEvent where
  | frame (f : WsFrame) : ChatEvent
  | history (data : Option (List Message)) : ChatEvent
  deriving DecidableEq, Repr

/-- One step of the messages state: a chat-typed frame appends its
payload in arrival order (line 56); frames of other types and
malformed frames are dropped; a resolved history fetch replaces the
whole list when the body is an array (setMessages(data), line 84) and
is ignored otherwise.  No deduplication and no timestamp sorting is
performed anywhere. -/
def chatStep (messages : List Message) (e : ChatEvent) : List Message :=
  match e with
  | ChatEvent.frame WsFrame.malformed => messages
  | ChatEvent.frame (WsFrame.envelope t payload) =>
      if t == "chat" then messages ++ [payload] else messages
  | ChatEvent.history none => messages
  | ChatEvent.history (some data) => data

/-- A run of the widget: the events folded over the messages state in
arrival order. -/
def chatRun (messages : List Message) (events : List ChatEvent) : List Message :=
  events.foldl chatStep messages

/-- The payloads of the chat-typed frames of a frame list, in order. -/
def chatPayloads (fs : List WsFrame) : List Message :=
  fs.filterMap fun f =>
    match f with
    | WsFrame.envelope t payload => if t == "chat" then some payload else none
    | WsFrame.malformed => none

/-- A frame-only run appends exactly the chat payloads in order. -/
theorem chatRun_frames (acc : List Message) (fs : List WsFrame) :
    chatRun acc (fs.map ChatEvent.frame) = acc ++ chatPayloads fs := by
  induction fs generalizing acc with
  | nil => simp [chatRun, chatPayloads]
  | cons f fs ih =>
    cases f with
    | malformed =>
      simpa [chatRun, chatStep, chatPayloads] using ih acc
    | envelope t payload =>
      by_cases ht : t = "chat"
      · subst ht
        have h2 := ih (acc ++ [payload])
        simp [chatRun, chatStep, chatPayloads, List.filterMap_cons] at h2 ⊢
        simp [h2]
      · have h2 := ih acc
        simp [chatRun, chatStep, chatPayloads, List.filterMap_cons, ht] at h2 ⊢
        exact h2

end Chat

/-- C5 counterexample: the claim's own chat-merge scenario.  A realtime
frame delivers the message timestamped 25 before the history fetch
(messages timestamped 10, 20, 30) resolves; the final list is exactly
the history — the already-delivered realtime message is overwritten
rather than merged, so the final list does not contain every delivered
message. -/
theorem chat_merge_cex :
    Chat.chatRun []
        [Chat.ChatEvent.frame (Chat.WsFrame.envelope "chat"
          { id := 25, content := "", sender_id := 0, created_at := 25, is_admin := false }),
         Chat.ChatEvent.history (some
          [{ id := 1, content := "", sender_id := 0, created_at := 10, is_admin := false },
           { id := 2, content := "", sender_id := 0, created_at := 20, is_admin := false },
           { id := 3, content := "", sender_id := 0, created_at := 30, is_admin := false }])] =
      [{ id := 1, content := "", sender_id := 0, created_at := 10, is_admin := false },
       { id := 2, content := "", sender_id := 0, created_at := 20, is_admin := false },
       { id := 3, content := "", sender_id := 0, created_at := 30, is_admin := false }] ∧
    ({ id := 25, content := "", sender_id := 0, created_at := 25, is_admin := false } :
        Chat.Message) ∉
      [{ id := 1, content := "", sender_id := 0, created_at := 10, is_admin := false },
       { id := 2, content := "", sender_id := 0, created_at := 20, is_admin := false },
       { id := 3, content := "", sender_id := 0, created_at := 30, is_admin := false }] := by
  exact ⟨rfl, by decide⟩

/-- C5 amended: the history fetch replaces the entire local message
list when it resolves, discarding every message delivered earlier
(from either source); realtime chat frames arriving afterwards are
appended in arrival order with no deduplication and no timestamp
sorting. -/
theorem chat_history_replaces (ms h : List Chat.Message)
    (fs : List Chat.WsFrame) :
    Chat.chatRun ms
        (Chat.ChatEvent.history (some h) :: fs.map Chat.ChatEvent.frame) =
      h ++ Chat.chatPayloads fs := by
  have hframes := Chat.chatRun_frames h fs
  simpa [Chat.chatRun, Chat.chatStep] using hframes

namespace Realtime

/-- The App notification channel's connection bookkeeping (AppContent
in src/App.tsx): the auth token and the wsUnauthorizedRef and
wsConnectingRef refs guarding the connect effect. -/
structure WsState where
  token : Option String
  wsUnauthorized : Bool
  wsConnecting : Bool
  deriving DecidableEq, Repr

/-- The guard of AppContent's WebSocket effect (App.tsx lines 439-446):
a new connection attempt is issued only with a token present, the
unauthorized ref clear and no connect already in flight. -/
def wsEffectConnects (st : WsState) : Bool :=
  st.token.isSome && !st.wsUnauthorized && !st.wsConnecting

/-- socket.onerror of the same effect (App.tsx lines 471-474): any
connection error sets the unauthorized ref — the channel's suspended
flag — and clears the connecting ref.  The ref is never reset while
the component stays mounted. -/
def wsOnError (st : WsState) : WsState :=
  { st with wsUnauthorized := true, wsConnecting := false }

/-- ChatWidget's ws.onclose (ChatWidget lines 64-71): three seconds
after any close — one following an auth-rejected connection included —
connectWebSocket is invoked again whenever user and token are still
set.  No close reason is inspected and no suspended state exists. -/
def chatReconnectAfterClose (user token : Bool) : Bool :=
  user && token

end Realtime

/-- C6 counterexample: in the ChatWidget realtime channel, after the
server closes a connection attempt rejected for authorization, with
the session still present the onclose timer invokes connectWebSocket
again — a further automatic reconnect attempt is issued before any new
session is established, so there is no terminal suspended state. -/
theorem ws_auth_reject_retries_cex :
    Realtime.chatReconnectAfterClose true true = true := rfl

/-- C6 amended: the App notification channel suspends terminally on any
socket error (an authorization rejection included): the error handler
sets the unauthorized ref, and while it is set the connect effect
issues no further attempt for any token value; the ChatWidget chat
channel instead schedules a reconnect after every close while a
session exists, even after an authorization rejection. -/
theorem ws_suspend_behavior :
    (∀ (st : Realtime.WsState) (t : Option String),
      Realtime.wsEffectConnects { Realtime.wsOnError st with token := t } = false) ∧
    Realtime.chatReconnectAfterClose true true = true := by
  refine ⟨?_, rfl⟩
  intro st t
  simp [Realtime.wsEffectConnects, Realtime.wsOnError]

namespace Catalog

/-- The sort keys of BookCatalog (SortOption: newest, price-asc,
price-desc, rating, bestseller). -/
inductive SortOption where
  | newest : SortOption
  | priceAsc : SortOption
  | priceDesc : SortOption
  | rating : SortOption
  | bestseller : SortOption
  deriving DecidableEq, Repr

/-- The filter state owned by BookCatalog
(src/components/BookCatalog.tsx lines 78-85).  searchQuery is a prop
passed down from the App header, not part of this state. -/
structure CatalogState where
  sortBy : SortOption
  selectedCategories : List String
  priceRange : Int × Int
  minRating : Nat
  selectedLetter : String
  currentPage : Nat
  deriving DecidableEq, Repr

/-- ITEMS_PER_PAGE (BookCatalog.tsx line 85). -/
def ITEMS_PER_PAGE : Nat := 12

/-- handleClearFilters (BookCatalog.tsx lines 118-125). -/
def handleClearFilters (_st : CatalogState) : CatalogState :=
  { sortBy := SortOption.newest, selectedCategories := [],
    priceRange := (0, 500000), minRating := 0, selectedLetter := "",
    currentPage := 1 }

/-- handleSortChange (BookCatalog.tsx lines 127-130). -/
def handleSortChange (st : CatalogState) (value : SortOption) : CatalogState :=
  { st with sortBy := value, currentPage := 1 }

/-- handleCategoryChange (BookCatalog.tsx lines 132-135). -/
def handleCategoryChange (st : CatalogState) (categories : List String) :
    CatalogState :=
  { st with selectedCategories := categories, currentPage := 1 }

/-- handlePriceChange (BookCatalog.tsx lines 137-140). -/
def handlePriceChange (st : CatalogState) (range : Int × Int) : CatalogState :=
  { st with priceRange := range, currentPage := 1 }

/-- handleRatingChange (BookCatalog.tsx lines 142-145). -/
def handleRatingChange (st : CatalogState) (rating : Nat) : CatalogState :=
  { st with minRating := rating, currentPage := 1 }

/-- handleLetterChange (BookCatalog.tsx lines 147-150). -/
def handleLetterChange (st : CatalogState) (letter : String) : CatalogState :=
  { st with selectedLetter := letter, currentPage := 1 }

/-- handlePageChange (BookCatalog.tsx lines 152-155). -/
def handlePageChange (st : CatalogState) (page : Nat) : CatalogState :=
  { st with currentPage := page }

/-- The FilterParams record BookCatalog emits to the App
(BookCatalog.tsx lines 58-67); every field optional. -/
structure FilterParams where
  categories : Option (List String)
  minPrice : Option Int
  maxPrice : Option Int
  minRating : Option Nat
  sortBy : Option SortOption
  search : Option String
  page : Option Nat
  limit : Option Nat
  deriving DecidableEq, Repr

/-- The filter-change effect of BookCatalog (lines 97-116): after the
300 ms debounce it emits the current state plus the searchQuery prop
as a FilterParams.  The page field carries currentPage unchanged — no
handler runs when the searchQuery prop changes, so nothing resets the
page on a search-text change. -/
def buildFilterParams (st : CatalogState) (searchQuery : String) : FilterParams :=
  { categories :=
      if st.selectedCategories.length > 0 then some st.selectedCategories else none,
    minPrice := some st.priceRange.1,
    maxPrice := some st.priceRange.2,
    minRating := if st.minRating > 0 then some st.minRating else none,
    sortBy := some st.sortBy,
    search := some searchQuery,
    page := some st.currentPage,
    limit := some ITEMS_PER_PAGE }

/-- The App-level filter state (FilterState of src/App.tsx lines
268-277). -/
structure FilterState where
  categories : List String
  minPrice : Int
  maxPrice : Int
  minRating : Nat
  sortBy : SortOption
  search : String
  page : Nat
  limit : Nat
  deriving DecidableEq, Repr

/-- handleFilterChange (App.tsx lines 568-580) with JavaScript
truthiness spelled out: categories uses p or-else the empty list;
minPrice, maxPrice, minRating and search use the nullish ?? operator;
sortBy uses p or-else prev (a present sort key is a non-empty string,
hence truthy); page and limit use p or-else a default, under which the
number 0 is falsy. -/
def handleFilterChange (prev : FilterState) (p : FilterParams) : FilterState :=
  { categories := p.categories.getD [],
    minPrice := p.minPrice.getD prev.minPrice,
    maxPrice := p.maxPrice.getD prev.maxPrice,
    minRating := p.minRating.getD prev.minRating,
    sortBy := p.sortBy.getD prev.sortBy,
    search := p.search.getD prev.search,
    page :=
      match p.page with
      | some n => if n = 0 then 1 else n
      | none => 1,
    limit :=
      match p.limit with
      | some n => if n = 0 then prev.limit else n
      | none => prev.limit }

/-- The (sort_by, sort_order) pair of buildQueryString's switch
(App.tsx lines 294-320). -/
def sortFieldOrder (s : SortOption) : String × String :=
  match s with
  | SortOption.priceAsc => ("price", "asc")
  | SortOption.priceDesc => ("price", "desc")
  | SortOption.rating => ("rating_avg", "desc")
  | SortOption.bestseller => ("sold", "desc")
  | SortOption.newest => ("created_at", "desc")

/-- buildQueryString (App.tsx lines 279-326), embedded as the ordered
key-value pair list handed to URLSearchParams: page and limit always
(with string fallbacks for missing values; the number 0 stringifies to
the truthy string so it is kept), categories only when non-empty,
min_price and max_price whenever defined, min_rating only when
positive, search only when a non-empty string, then the sort pair. -/
def buildQueryString (params : FilterParams) : List (String × String) :=
  [("page", match params.page with | some n => toString n | none => "1"),
   ("limit", match params.limit with | some n => toString n | none => "20")] ++
  (match params.categories with
   | some cs => if cs.length > 0 then [("categories", String.intercalate "," cs)] else []
   | none => []) ++
  (match params.minPrice with
   | some v => [("min_price", toString v)]
   | none => []) ++
  (match params.maxPrice with
   | some v => [("max_price", toString v)]
   | none => []) ++
  (match params.minRating with
   | some v => if v > 0 then [("min_rating", toString v)] else []
   | none => []) ++
  (match params.search with
   | some s => if s ≠ "" then [("search", s)] else []
   | none => []) ++
  [("sort_by", (sortFieldOrder (params.sortBy.getD SortOption.newest)).1),
   ("sort_order", (sortFieldOrder (params.sortBy.getD SortOption.newest)).2)]

end Catalog

/-- C7 counterexample: with the catalog on page 3 filtered to the
fiction category, changing only the search text to history emits
FilterParams with page 3, and the issued query string carries page=3 —
not page=1 as the claim requires for every filter field. -/
theorem search_change_keeps_page_cex :
    (Catalog.buildFilterParams
        { sortBy := Catalog.SortOption.newest,
          selectedCategories := ["fiction"], priceRange := (0, 500000),
          minRating := 0, selectedLetter := "", currentPage := 3 }
        "history").page = some 3 ∧
    ("page", "3") ∈ Catalog.buildQueryString
        (Catalog.buildFilterParams
          { sortBy := Catalog.SortOption.newest,
            selectedCategories := ["fiction"], priceRange := (0, 500000),
            minRating := 0, selectedLetter := "", currentPage := 3 }
          "history") ∧
    (some 3 : Option Nat) ≠ some 1 := by
  refine ⟨rfl, ?_, by decide⟩
  simp only [Catalog.buildQueryString, Catalog.buildFilterParams]
  decide

/-- C7 amended: every filter handler — sort, category, price, rating,
letter, clear — resets the current page to 1, but a search-text change
runs no handler: the emitted FilterParams carries the previous
currentPage, and the query the App issues from it keeps that page
(subject only to the JavaScript or-fallback that turns page 0 into
1). -/
theorem filter_changes_reset_page :
    (∀ st v, (Catalog.handleSortChange st v).currentPage = 1) ∧
    (∀ st cs, (Catalog.handleCategoryChange st cs).currentPage = 1) ∧
    (∀ st r, (Catalog.handlePriceChange st r).currentPage = 1) ∧
    (∀ st r, (Catalog.handleRatingChange st r).currentPage = 1) ∧
    (∀ st l, (Catalog.handleLetterChange st l).currentPage = 1) ∧
    (∀ st, (Catalog.handleClearFilters st).currentPage = 1) ∧
    (∀ st q, (Catalog.buildFilterParams st q).page = some st.currentPage) ∧
    (∀ fs st q,
      (Catalog.handleFilterChange fs (Catalog.buildFilterParams st q)).page =
        if st.currentPage = 0 then 1 else st.currentPage) := by
  refine ⟨fun st v => rfl, fun st cs => rfl, fun st r => rfl, fun st r => rfl,
    fun st l => rfl, fun st => rfl, fun st q => rfl, fun fs st q => rfl⟩

namespace Api

/-- A parsed JSON body as JavaScript sees it, plus undefined for the
result of property access past a miss.  Arrays are omitted: the error
path reads only the error and message properties, and on an array both
are undefined exactly as on a field-free object. -/
inductive JVal where
  | undef : JVal
  | null : JVal
  | bool (b : Bool) : JVal
  | num (n : Int) : JVal
  | str (s : String) : JVal
  | obj (fields : List (String × JVal)) : JVal

/-- JavaScript truthiness of a value. -/
def jsTruthy : JVal → Bool
  | JVal.undef => false
  | JVal.null => false
  | JVal.bool b => b
  | JVal.num n => n != 0
  | JVal.str s => s != ""
  | JVal.obj _ => true

/-- Property access with optional chaining (data?.error): undefined off
anything that is not an object holding the key; data is null when the
body failed to parse, and null?.x is undefined. -/
def jsGet : JVal → String → JVal
  | JVal.obj fields, k =>
    match fields.find? (fun f => f.1 == k) with
    | some f => f.2
    | none => JVal.undef
  | _, _ => JVal.undef

/-- The JavaScript or operator on values: the left operand when truthy,
otherwise the right. -/
def jsOr (a b : JVal) : JVal := if jsTruthy a then a else b

/-- String conversion as the Error constructor applies to its message
argument: a plain object stringifies to the opaque [object Object]. -/
def jsToString : JVal → String
  | JVal.undef => "undefined"
  | JVal.null => "null"
  | JVal.bool b => if b then "true" else "false"
  | JVal.num n => toString n
  | JVal.str s => s
  | JVal.obj _ => "[object Object]"

/-- ApiError (src/services/api.ts lines 3-12): the numeric status, the
status text and the message handed to the Error constructor. -/
structure ApiError where
  status : Nat
  statusText : String
  message : String
  deriving DecidableEq, Repr

/-- The non-success path of fetchAPI (api.ts lines 29-37): the body is
parsed with a fallback to null (line 29: response.json() with a catch
to null), and the thrown ApiError carries response.status,
response.statusText and the stringification of data?.error or-else
data?.message or-else the fallback string.  Note the code reads the
whole top-level error field; it never reaches into a nested
error.message. -/
def apiErrorOfResponse (status : Nat) (statusText : String)
    (body : Option JVal) : ApiError :=
  let data := body.getD JVal.null
  { status := status, statusText := statusText,
    message := jsToString (jsOr (jsGet data "error")
      (jsOr (jsGet data "message") (JVal.str "An error occurred"))) }

end Api

/-- C8 counterexample: for the documented nested envelope with an
error object carrying code and message fields, the thrown ApiError's
message is the stringified object — the opaque [object Object] — and
not the nested human-readable message, refuting the claimed extraction
priority. -/
theorem api_error_nested_envelope_cex :
    Api.apiErrorOfResponse 400 "Bad Request"
        (some (Api.JVal.obj [("error", Api.JVal.obj
          [("code", Api.JVal.str "INSUFFICIENT_STOCK"),
           ("message", Api.JVal.str "Insufficient stock")])])) =
      { status := 400, statusText := "Bad Request",
        message := "[object Object]" } ∧
    "[object Object]" ≠ "Insufficient stock" := by
  exact ⟨rfl, by decide⟩

/-- C8 amended: every non-success response yields an ApiError carrying
the numeric status and status text, with the message chosen by
truthiness priority from the whole top-level error field (stringified
as-is, so a nested error object becomes [object Object] instead of its
inner message), else the top-level message field, else the generic
fallback; an unparseable body still yields the status with the generic
message. -/
theorem api_error_priority (status : Nat) (stext : String) (data : Api.JVal) :
    ((Api.apiErrorOfResponse status stext (some data)).status = status ∧
      (Api.apiErrorOfResponse status stext (some data)).statusText = stext) ∧
    (Api.apiErrorOfResponse status stext (some data)).message =
      (if Api.jsTruthy (Api.jsGet data "error") then
        Api.jsToString (Api.jsGet data "error")
      else if Api.jsTruthy (Api.jsGet data "message") then
        Api.jsToString (Api.jsGet data "message")
      else "An error occurred") ∧
    (Api.apiErrorOfResponse status stext none =
      { status := status, statusText := stext,
        message := "An error occurred" }) ∧
    (∀ code msg : String,
      (Api.apiErrorOfResponse status stext (some (Api.JVal.obj
        [("error", Api.JVal.obj [("code", Api.JVal.str code),
          ("message", Api.JVal.str msg)])]))).message = "[object Object]") ∧
    (∀ msg : String,
      (Api.apiErrorOfResponse status stext
          (some (Api.JVal.obj [("message", Api.JVal.str msg)]))).message =
        if msg = "" then "An error occurred" else msg) := by
  refine ⟨⟨rfl, rfl⟩, ?_, rfl, fun code msg => rfl, fun msg => ?_⟩
  · by_cases he : Api.jsTruthy (Api.jsGet data "error")
    · simp [Api.apiErrorOfResponse, Api.jsOr, he]
    · by_cases hm : Api.jsTruthy (Api.jsGet data "message")
      · simp [Api.apiErrorOfResponse, Api.jsOr, he, hm]
      · simp [Api.apiErrorOfResponse, Api.jsOr, he, hm, Api.jsToString]
  · by_cases hmsg : msg = ""
    · subst hmsg
      rfl
    · simp [Api.apiErrorOfResponse, Api.jsOr, Api.jsGet, Api.jsTruthy,
        Api.jsToString, List.find?, hmsg]

namespace Auth

/-- The double-quote character. -/
def quoteChar : Char := Char.ofNat 34

/-- The opening-brace character. -/
def braceOpen : Char := Char.ofNat 123

/-- The closing-brace character. -/
def braceClose : Char := Char.ofNat 125

/-- The backslash character. -/
def backslashChar : Char := Char.ofNat 92

/-- Body of a JSON string literal after its opening quote: the
characters up to the closing quote (escape sequences rejected, as
JSON.stringify emits none for the persisted user fields). -/
def parseStrBody : List Char → String → Option (String × List Char)
  | [], _ => none
  | c :: cs, acc =>
    if c = quoteChar then some (acc, cs)
    else if c = backslashChar then none
    else parseStrBody cs (acc.push c)

/-- Comma-separated key-value string pairs up to the closing brace
(fuel-indexed recursion over the remaining input). -/
def parsePairs : Nat → List Char → List (String × String) →
    Option (List (String × String))
  | 0, _, _ => none
  | fuel + 1, cs, acc =>
    match cs with
    | [] => none
    | q :: rest =>
      if q = quoteChar then
        match parseStrBody rest "" with
        | none => none
        | some (k, rest2) =>
          match rest2 with
          | colon :: q2 :: rest3 =>
            if colon = ':' then
              if q2 = quoteChar then
                match parseStrBody rest3 "" with
                | none => none
                | some (v, rest4) =>
                  match rest4 with
                  | [sep] =>
                    if sep = braceClose then some (acc ++ [(k, v)]) else none
                  | sep :: rest5 =>
                    if sep = ',' then parsePairs fuel rest5 (acc ++ [(k, v)])
                    else none
                  | [] => none
              else none
            else none
          | _ => none
      else none

/-- JSON.parse restricted to flat string-valued objects — the exact
shape JSON.stringify writes for the persisted user record
(AuthContext.tsx line 539).  Every input rejected here, such as a
string that does not open with a brace, is also rejected (with a
thrown SyntaxError) by JSON.parse. -/
def jsonParse (s : String) : Option (List (String × String)) :=
  match s.data with
  | [] => none
  | c :: rest =>
    if c = braceOpen then
      match rest with
      | [c2] => if c2 = braceClose then some [] else none
      | _ => parsePairs rest.length rest []
    else none

/-- The AuthProvider state (src/contexts/AuthContext.tsx lines
516-518); user holds the JSON value parsed from the stored user. -/
structure AuthState where
  token : Option String
  user : Option (List (String × String))
  loading : Bool
  deriving DecidableEq, Repr

/-- Truthiness of a localStorage read: getItem answers null for a
missing key, and the empty string is falsy too. -/
def presentAndTruthy : Option String → Bool
  | none => false
  | some s => s != ""

/-- The restore effect of AuthProvider (AuthContext.tsx lines 520-531):
when both stored values are present (and truthy), setToken runs first
and then setUser(JSON.parse(storedUser)) — the parse is unguarded, so
on a malformed stored user the effect has already set the token when
JSON.parse throws, setLoading(false) is never reached, and the error
escapes the effect (the second component records the escaped error). -/
def restoreAuth (storedToken storedUser : Option String) :
    AuthState × Option String :=
  if presentAndTruthy storedToken && presentAndTruthy storedUser then
    match jsonParse (storedUser.getD "") with
    | some u =>
      ({ token := storedToken, user := some u, loading := false }, none)
    | none =>
      ({ token := storedToken, user := none, loading := true },
        some "SyntaxError: Unexpected token in JSON")
  else
    ({ token := none, user := none, loading := false }, none)

end Auth

/-- C9: a missing stored token or user does start the store
unauthenticated without an error, but a present-and-malformed stored
user makes the unguarded JSON.parse throw out of the restore effect —
with the token already set, no user, and loading stuck — instead of
being treated as absent; a well-formed pair restores normally. -/
theorem restore_malformed_throws :
    (∀ u : Option String, Auth.restoreAuth none u =
      ({ token := none, user := none, loading := false }, none)) ∧
    (∀ t : Option String, Auth.restoreAuth t none =
      ({ token := none, user := none, loading := false }, none)) ∧
    Auth.restoreAuth (some "tok") (some "not-json") =
      ({ token := some "tok", user := none, loading := true },
        some "SyntaxError: Unexpected token in JSON") ∧
    Auth.restoreAuth (some "tok") (some "\x7b\"id\":\"1\"\x7d") =
      ({ token := some "tok", user := some [("id", "1")],
         loading := false }, none) := by
  refine ⟨fun u => rfl, fun t => ?_, by decide, by decide⟩
  cases t with
  | none => rfl
  | some s => simp [Auth.restoreAuth, Auth.presentAndTruthy]

namespace CatalogNorm

/-- A category object as received from the API (Category in
src/types/api.ts).  created_at and updated_at are some number in the
typeof-number branch and none otherwise (a string or absent value,
which the normalization replaces by the clock). -/
structure ApiCategory where
  id : String
  name : String
  slug : String
  description : Option String
  created_at : Option Int
  updated_at : Option Int
  deriving DecidableEq, Repr

/-- The runtime shapes of an API book's category field, following the
typeof checks of normalizeBook (App.tsx lines 333-355): a bare string,
a truthy object, or anything else — null, undefined, a number — which
satisfies neither branch. -/
inductive CategoryField where
  | strv (s : String) : CategoryField
  | objv (c : ApiCategory) : CategoryField
  | absent : CategoryField
  deriving DecidableEq, Repr

/-- A catalog book as received from the API (Book in src/types/api.ts),
restricted to the fields normalizeBook reads. -/
structure ApiBook where
  id : String
  title : String
  author : String
  price : Int
  cover_url : Option String
  image_url : Option String
  excerpt : Option String
  category : CategoryField
  rating_avg : Option Int
  rating_count : Option Int
  stock : Int
  deriving DecidableEq, Repr

/-- The normalized category (BookCatalogCategory in App.tsx lines
259-266). -/
structure BookCatalogCategory where
  id : String
  name : String
  slug : String
  description : String
  created_at : Int
  updated_at : Int
  deriving DecidableEq, Repr

/-- The normalized book (BookCatalogBook in App.tsx lines 246-257). -/
structure BookCatalogBook where
  id : String
  title : String
  author : String
  price : Int
  image_url : Option String
  excerpt : Option String
  category : BookCatalogCategory
  rating_avg : Option Int
  rating_count : Option Int
  stock : Int
  deriving DecidableEq, Repr

/-- Each maximal whitespace run becomes a single dash (the global
whitespace-run replace of the synthesized slug, App.tsx line 339). -/
def collapseWs : Bool → List Char → List Char
  | _, [] => []
  | prevWs, c :: cs =>
    if c.isWhitespace then
      if prevWs then collapseWs true cs else '-' :: collapseWs true cs
    else c :: collapseWs false cs

/-- The synthesized slug: lower-cased with whitespace runs dashed
(App.tsx line 339). -/
def slugify (s : String) : String :=
  String.mk (collapseWs false s.toLower.data)

/-- categoryMap.get on the map built from the fetched categories
(App.tsx lines 418-419, keyed by category id). -/
def lookupCategory (m : List (String × BookCatalogCategory)) (k : String) :
    Option BookCatalogCategory :=
  (m.find? (fun e => e.1 == k)).map (fun e => e.2)

/-- A string option filtered by JavaScript truthiness (the empty
string is falsy). -/
def truthyStr : Option String → Option String
  | some s => if s = "" then none else some s
  | none => none

/-- book.image_url or-else book.cover_url or-else null (App.tsx line
364). -/
def strFallback (a b : Option String) : Option String :=
  match truthyStr a with
  | some s => some s
  | none => truthyStr b

/-- normalizeBook (App.tsx lines 329-371), with the ambient clock for
Date.now() passed explicitly: a string category is looked up in the
category map, a synthesized placeholder standing in when the lookup
misses; a truthy object category is normalized field by field; any
other category shape leaves the local category null, and the function
then answers null (line 357). -/
def normalizeBook (book : ApiBook)
    (categoryMap : List (String × BookCatalogCategory)) (now : Int) :
    Option BookCatalogBook :=
  let category : Option BookCatalogCategory :=
    match book.category with
    | CategoryField.strv s =>
      some ((lookupCategory categoryMap s).getD
        { id := s, name := s, slug := slugify s, description := "",
          created_at := now, updated_at := now })
    | CategoryField.objv c =>
      some { id := c.id, name := c.name, slug := c.slug,
             description := c.description.getD "",
             created_at := c.created_at.getD now,
             updated_at := c.updated_at.getD now }
    | CategoryField.absent => none
  match category with
  | none => none
  | some cat =>
    some { id := book.id, title := book.title, author := book.author,
           price := book.price,
           image_url := strFallback book.image_url book.cover_url,
           excerpt := book.excerpt, category := cat,
           rating_avg := book.rating_avg, rating_count := book.rating_count,
           stock := book.stock }

/-- The book-list normalization of fetchBooksWithFilters (App.tsx lines
421-423) and fetchBooks (lines 495-497): map normalizeBook over the
response's books, then filter out the nulls. -/
def normalizedBooks (books : List ApiBook)
    (categoryMap : List (String × BookCatalogCategory)) (now : Int) :
    List BookCatalogBook :=
  (books.map (fun b => normalizeBook b categoryMap now)).filterMap id

/-- Whether a book's category field satisfies one of normalizeBook's
two branches. -/
def hasCategoryShape (b : ApiBook) : Bool :=
  match b.category with
  | CategoryField.absent => false
  | _ => true

end CatalogNorm

/-- C10: a book whose category field is neither a string nor a truthy
object is mapped to null by normalizeBook and silently dropped from
the displayed list — the rendered catalog is the same as if such books
had been filtered away first — while every book whose category is a
string or an object survives normalization. -/
theorem absent_category_dropped :
    (∀ b m now, b.category = CatalogNorm.CategoryField.absent →
      CatalogNorm.normalizeBook b m now = none) ∧
    (∀ b m now, b.category ≠ CatalogNorm.CategoryField.absent →
      (CatalogNorm.normalizeBook b m now).isSome = true) ∧
    (∀ books m now,
      CatalogNorm.normalizedBooks books m now =
        CatalogNorm.normalizedBooks
          (books.filter CatalogNorm.hasCategoryShape) m now) := by
  refine ⟨?_, ?_, ?_⟩
  · intro b m now habs
    simp [CatalogNorm.normalizeBook, habs]
  · intro b m now habs
    cases hcat : b.category with
    | strv s => simp [CatalogNorm.normalizeBook, hcat]
    | objv c => simp [CatalogNorm.normalizeBook, hcat]
    | absent => exact absurd hcat habs
  · intro books m now
    induction books with
    | nil => rfl
    | cons b bs ih =>
      cases hcat : b.category with
      | strv s =>
        simp [CatalogNorm.normalizedBooks, CatalogNorm.hasCategoryShape,
          CatalogNorm.normalizeBook, hcat, List.filter_cons] at ih ⊢
        exact ih
      | objv c =>
        simp [CatalogNorm.normalizedBooks, CatalogNorm.hasCategoryShape,
          CatalogNorm.normalizeBook, hcat, List.filter_cons] at ih ⊢
        exact ih
      | absent =>
        simp [CatalogNorm.normalizedBooks, CatalogNorm.hasCategoryShape,
          CatalogNorm.normalizeBook, hcat, List.filter_cons] at ih ⊢
        exact ih

/-- Closed instance of absent_category_dropped: a concrete book with a
null category normalizes to null. -/
theorem absent_category_dropped_witness :
    CatalogNorm.normalizeBook
        { id := "b1", title := "t", author := "a", price := 1,
          cover_url := none, image_url := none, excerpt := none,
          category := CatalogNorm.CategoryField.absent,
          rating_avg := none, rating_count := none, stock := 0 } [] 0 =
      none :=
  absent_category_dropped.1
    { id := "b1", title := "t", author := "a", price := 1,
      cover_url := none, image_url := none, excerpt := none,
      category := CatalogNorm.CategoryField.absent,
      rating_avg := none, rating_count := none, stock := 0 } [] 0 rfl

end EbookClient
